import Mathlib

/-!
Verification development for the CamPyRoS 6DOF trajectory simulator.

The definitions below are a shallow embedding of the trajectory core:

* `fdot` embeds `Rocket.fdot` from `src/campyros/main.py` (the most complete
  variant).  External collaborators that live outside the embedded file
  (the frame-transform module `campyros.transforms`, the `ambiance`
  atmosphere package, the wind provider, the motor/aero/mass models) are
  abstracted as function-valued fields of `Env`, exactly at the call
  boundaries the source uses.
* Machine floats are modelled by real numbers.  A float division whose
  denominator may vanish is embedded as the checked division `cdiv`
  (`none` marks the division-by-zero that numpy would turn into NaN/inf),
  so definedness of the embedding records that no division by zero
  happened.
* `check_phase` embeds `Rocket.check_phase`, and the run loop's mutation
  pattern is embedded as sequences of phase checks and integrator steps.
* `pos_launch_to_inertial` / `pos_inertial_to_launch` / `rot_matrix` embed
  the functions of the same names from `src/main.py`.
* `CylindricalMassModel` embeds the mass model of `src/main.py` (over ℚ,
  with the scipy interpolant abstracted as a field).
-/

noncomputable section

open scoped Classical

/-! ## Three-component vectors (numpy arrays of length 3) -/

@[ext]
structure Vec3 where
  x : ℝ
  y : ℝ
  z : ℝ

namespace Vec3

def add (a b : Vec3) : Vec3 := ⟨a.x + b.x, a.y + b.y, a.z + b.z⟩

def sub (a b : Vec3) : Vec3 := ⟨a.x - b.x, a.y - b.y, a.z - b.z⟩

def smul (c : ℝ) (v : Vec3) : Vec3 := ⟨c * v.x, c * v.y, c * v.z⟩

def neg (v : Vec3) : Vec3 := ⟨-v.x, -v.y, -v.z⟩

instance : Add Vec3 := ⟨add⟩

instance : Sub Vec3 := ⟨sub⟩

instance : SMul ℝ Vec3 := ⟨smul⟩

instance : Neg Vec3 := ⟨neg⟩

instance : Zero Vec3 := ⟨⟨0, 0, 0⟩⟩

/-- np.dot for 3-vectors. -/
def dot (a b : Vec3) : ℝ := a.x * b.x + a.y * b.y + a.z * b.z

/-- np.cross for 3-vectors. -/
def cross (a b : Vec3) : Vec3 :=
  ⟨a.y * b.z - a.z * b.y, a.z * b.x - a.x * b.z, a.x * b.y - a.y * b.x⟩

/-- np.linalg.norm for 3-vectors. -/
def norm (v : Vec3) : ℝ := Real.sqrt (dot v v)

end Vec3

/-- Orthogonal projection of `a` onto the line spanned by `u`. -/
def projectOnto (u a : Vec3) : Vec3 := (Vec3.dot a u / Vec3.dot u u) • u

/-- np.sign on reals. -/
def npSign (a : ℝ) : ℝ := if 0 < a then 1 else if a < 0 then -1 else 0

/-- Checked scalar division: `none` marks a division by zero. -/
def cdiv (a b : ℝ) : Option ℝ := if b = 0 then none else some (a / b)

/-- Checked division of a vector by a scalar: `none` marks a division by zero. -/
def cdivV (v : Vec3) (b : ℝ) : Option Vec3 :=
  if b = 0 then none else some ⟨v.x / b, v.y / b, v.z / b⟩

/-! ## Rotations stored as the three body-axis columns

The source stores orientation as the three inertial-frame body-axis vectors
and rebuilds `scipy.spatial.transform.Rotation` from the matrix whose
columns they are; applying that rotation is multiplication by the matrix,
and applying its inverse is multiplication by the transpose. -/

/-- Apply the body-to-inertial rotation whose matrix columns are `xb yb zb`. -/
def rotApply (xb yb zb v : Vec3) : Vec3 := v.x • xb + v.y • yb + v.z • zb

/-- Apply the inverse rotation (multiplication by the transpose). -/
def rotInvApply (xb yb zb v : Vec3) : Vec3 :=
  ⟨Vec3.dot xb v, Vec3.dot yb v, Vec3.dot zb v⟩

/-! ## The fdot embedding (Rocket.fdot of src/campyros/main.py) -/

/-- Altitude clamp of `Rocket.fdot` (src/campyros/main.py lines 543-546). -/
def clampAlt (alt : ℝ) : ℝ :=
  if alt < -5000 then -5000 else if 81020 < alt then 81020 else alt

/-- Geodetic latitude/longitude/altitude triple returned by `i2lla`. -/
structure LLA where
  lat : ℝ
  long : ℝ
  alt : ℝ

/-- Atmosphere lookup result (the `ambiance.Atmosphere` fields used). -/
structure AtmoData where
  speed_of_sound : ℝ
  density : ℝ
  pressure : ℝ

/-- Parachute data (class `Parachute` of src/campyros/main.py). -/
structure Parachute where
  main_s : ℝ
  main_c_d : ℝ
  drogue_s : ℝ
  drogue_c_d : ℝ
  main_alt : ℝ
  attach_distance : ℝ

/-- Result pair of `Parachute.get` (drag coefficient, area). -/
structure ParaCd where
  c_d : ℝ
  s : ℝ

/-- `Parachute.get`: main below `main_alt`, else drogue. -/
def Parachute.get (p : Parachute) (alt : ℝ) : ParaCd :=
  if alt < p.main_alt then ⟨p.main_c_d, p.main_s⟩ else ⟨p.drogue_c_d, p.drogue_s⟩

/-- External collaborators and constant attributes read by `Rocket.fdot`.
The function-valued fields abstract the frame-transform module, the wind
provider, the `ambiance` atmosphere and the motor/aero/mass model objects,
at exactly the call boundaries of the source. -/
structure Env where
  i2lla : Vec3 → ℝ → LLA
  i2airspeed : Vec3 → Vec3 → ℝ → Vec3
  direction_l2i : Vec3 → ℝ → Vec3
  get_wind : ℝ → ℝ → ℝ → Vec3
  atmosphere : ℝ → AtmoData
  mass : ℝ → ℝ
  cog : ℝ → ℝ
  ixx : ℝ → ℝ
  iyy : ℝ → ℝ
  izz : ℝ → ℝ
  aero_COP : ℝ → ℝ → ℝ
  aero_CA : ℝ → ℝ → ℝ
  aero_CN : ℝ → ℝ → ℝ
  ref_area : ℝ
  roll_damping_coefficient : ℝ
  pitch_damping_coefficient : ℝ
  motor_burn_end : ℝ
  motor_thrust : ℝ → ℝ
  motor_ambient_pressure : ℝ
  motor_exit_area : ℝ
  motor_pos : ℝ
  thrust_vector : Vec3
  parachute : Parachute
  err_gravity : ℝ
  err_pressure : ℝ
  err_density : ℝ
  err_speed_of_sound : ℝ

/-- The mutable phase flags of the `Rocket` object read by `fdot`. -/
structure Flags where
  on_rail : Bool
  burn_out : Bool
  parachute_deployed : Bool

/-- The 18-component state array `fn`, decoded into its six 3-vectors. -/
structure StateVec where
  pos_i : Vec3
  vel_i : Vec3
  w_b : Vec3
  xb : Vec3
  yb : Vec3
  zb : Vec3

/-- Force/moment contribution of the aerodynamics branch of `fdot`. -/
structure AeroOut where
  F_b : Vec3
  F_i : Vec3
  M_b : Vec3

/-- Force/moment contribution of the motor branch of `fdot`, plus the
one-shot burnout flag it leaves behind. -/
structure MotorOut where
  F_b : Vec3
  M_b : Vec3
  burn : Bool

/-- Intermediate quantities of `fdot` before the rail branch. -/
structure Core where
  w_i : Vec3
  M_b_total : Vec3
  acc_raw : Vec3
  burn : Bool

/-- The relative-wind vector in inertial coordinates computed by `fdot`
(src/campyros/main.py lines 558-565); the wind lookup receives the clamped
altitude because the clamp is applied before it in the source. -/
def vRelWindI (env : Env) (time : ℝ) (fn : StateVec) : Vec3 :=
  env.direction_l2i
    (env.i2airspeed fn.pos_i fn.vel_i time -
      env.get_wind (env.i2lla fn.pos_i time).lat (env.i2lla fn.pos_i time).long
        (clampAlt (env.i2lla fn.pos_i time).alt))
    time

/-- The relative-wind vector rotated into body coordinates. -/
def vRelWindB (env : Env) (time : ℝ) (fn : StateVec) : Vec3 :=
  rotInvApply fn.xb fn.yb fn.zb (vRelWindI env time fn)

/-- The apparent airspeed magnitude `air_speed` of `fdot`. -/
def airSpeed (env : Env) (time : ℝ) (fn : StateVec) : ℝ :=
  Vec3.norm (vRelWindB env time fn)

/-- Forces and moments of `Rocket.fdot` up to the net linear acceleration
`acc_i = F_i_total / mass` (src/campyros/main.py lines 500-676), before the
rail branch.  Every float division with a possibly-zero denominator is the
checked `cdiv`/`cdivV`. -/
def fdotCore (env : Env) (flags : Flags) (time : ℝ) (fn : StateVec) : Option Core :=
  let w_i := rotApply fn.xb fn.yb fn.zb fn.w_b
  let lla := env.i2lla fn.pos_i time
  let cog := env.cog time
  let mass := env.mass time
  let alt := clampAlt lla.alt
  let atmo := env.atmosphere alt
  let speed_of_sound := atmo.speed_of_sound * env.err_speed_of_sound
  let ambient_density := atmo.density * env.err_density
  let ambient_pressure := atmo.pressure * env.err_pressure
  let v_relative_wind_i := vRelWindI env time fn
  let v_relative_wind_b := vRelWindB env time fn
  let air_speed := airSpeed env time fn
  let q := 0.5 * ambient_density * air_speed ^ 2
  ((if flags.parachute_deployed = true ∧ env.parachute.main_c_d ≠ 0 then
    (cdivV v_relative_wind_i air_speed).map fun unit_i =>
      let pget := env.parachute.get alt
      { F_b := 0
        F_i := (-0.5 * q * pget.s * pget.c_d) • unit_i
        M_b := 0 }
   else
    (cdiv air_speed speed_of_sound).bind fun mach =>
    (cdivV v_relative_wind_b air_speed).map fun unit_b =>
      let alpha := Real.arccos (Vec3.dot unit_b ⟨1, 0, 0⟩)
      let cop := env.aero_COP mach |alpha|
      let r_cop_cog_b := (cop - cog) • (⟨-1, 0, 0⟩ : Vec3)
      let CA := env.aero_CA mach |alpha|
      let CN := env.aero_CN mach |alpha|
      let FA_b := (CA * q * env.ref_area) • (⟨-(npSign v_relative_wind_b.x), 0, 0⟩ : Vec3)
      let FN_b := (CN * q * env.ref_area) •
        Vec3.cross ⟨1, 0, 0⟩ (Vec3.cross ⟨1, 0, 0⟩ unit_b)
      let F_aero_b := FA_b + FN_b
      let M_aero_b := Vec3.cross r_cop_cog_b F_aero_b
      let M_aerodamping_b : Vec3 :=
        ⟨-(npSign fn.w_b.x) * ambient_density * fn.w_b.x ^ 2 * env.roll_damping_coefficient,
         -(npSign fn.w_b.y) * ambient_density * fn.w_b.y ^ 2 * env.pitch_damping_coefficient,
         -(npSign fn.w_b.z) * ambient_density * fn.w_b.z ^ 2 * env.pitch_damping_coefficient⟩
      { F_b := F_aero_b, F_i := 0, M_b := M_aero_b + M_aerodamping_b }
  : Option AeroOut)).bind fun aero =>
  ((if time < env.motor_burn_end then
    (cdivV env.thrust_vector (Vec3.norm env.thrust_vector)).map fun unit_tv =>
      let thrust := env.motor_thrust time +
        (env.motor_ambient_pressure - ambient_pressure) * env.motor_exit_area
      let r_engine_cog_b := (env.motor_pos - cog) • (⟨-1, 0, 0⟩ : Vec3)
      let mdot := (env.mass (time + 1) - env.mass (time - 1)) / 2
      let F_thrust_b := thrust • unit_tv
      { F_b := F_thrust_b
        M_b := Vec3.cross r_engine_cog_b F_thrust_b +
          (mdot * (env.cog time - env.motor_pos) ^ 2) • (⟨0, fn.w_b.y, fn.w_b.z⟩ : Vec3)
        burn := flags.burn_out }
   else
    some { F_b := 0, M_b := 0, burn := true }
  : Option MotorOut)).bind fun motor =>
  (cdiv (-env.err_gravity * 3.986004418e14 * mass) (Vec3.norm fn.pos_i ^ 3)).bind fun gscale =>
  let F_gravity_i := gscale • fn.pos_i
  let F_b := aero.F_b + motor.F_b
  let F_i := aero.F_i + F_gravity_i
  let M_b := aero.M_b + motor.M_b
  let M_i : Vec3 := 0
  let F_i_total := F_i + rotApply fn.xb fn.yb fn.zb F_b
  let M_b_total := M_b + rotInvApply fn.xb fn.yb fn.zb M_i
  (cdivV F_i_total mass).map fun acc_raw =>
  ({ w_i := w_i, M_b_total := M_b_total, acc_raw := acc_raw, burn := motor.burn } : Core)

/-- The rail branch of `fdot` (src/campyros/main.py lines 678-699): on the
rail, keep only the acceleration component along the normalised body
x-axis and zero the rotational acceleration; off the rail, Euler's
rigid-body equations. -/
def railAccWdot (env : Env) (flags : Flags) (time : ℝ) (fn : StateVec)
    (core : Core) : Option (Vec3 × Vec3) :=
  if flags.on_rail = true then
    let xb_i0 := rotApply fn.xb fn.yb fn.zb ⟨1, 0, 0⟩
    (cdivV xb_i0 (Vec3.norm xb_i0)).map fun xb_i =>
      ((Vec3.dot core.acc_raw xb_i) • xb_i, (0 : Vec3))
  else
    (cdiv (core.M_b_total.x + (env.iyy time - env.izz time) * fn.w_b.y * fn.w_b.z)
        (env.ixx time)).bind fun w1 =>
    (cdiv (core.M_b_total.y + (env.izz time - env.ixx time) * fn.w_b.z * fn.w_b.x)
        (env.iyy time)).bind fun w2 =>
    (cdiv (core.M_b_total.z + (env.ixx time - env.iyy time) * fn.w_b.x * fn.w_b.y)
        (env.izz time)).map fun w3 =>
    (core.acc_raw, (⟨w1, w2, w3⟩ : Vec3))

/-- The 18-component derivative returned by `fdot`, plus the one-shot
burnout flag left on the Rocket object (its only side effect). -/
structure FdotOut where
  vel_i : Vec3
  acc_i : Vec3
  wdot_b : Vec3
  xbdot : Vec3
  ybdot : Vec3
  zbdot : Vec3
  burn_out : Bool

/-- `Rocket.fdot` of src/campyros/main.py. -/
def fdot (env : Env) (flags : Flags) (time : ℝ) (fn : StateVec) : Option FdotOut :=
  (fdotCore env flags time fn).bind fun core =>
  (railAccWdot env flags time fn core).map fun aw =>
  { vel_i := fn.vel_i
    acc_i := aw.1
    wdot_b := aw.2
    xbdot := Vec3.cross core.w_i fn.xb
    ybdot := Vec3.cross core.w_i fn.yb
    zbdot := Vec3.cross core.w_i fn.zb
    burn_out := core.burn }

/-! ## The phase state machine (Rocket.check_phase) and the run loop

`check_phase` mutates the Rocket's flags between integrator steps; the
fields it reads and writes are collected in `SimState`.  The launch-site
data and the frame transforms it calls are abstracted in `PhaseParams`
(the transforms live in the `campyros.transforms` module, outside the
embedded file). -/

/-- The Rocket fields read or written by `Rocket.check_phase` and the run
loop of `Rocket.run`. -/
structure SimState where
  pos_i : Vec3
  vel_i : Vec3
  w_b : Vec3
  xb : Vec3
  yb : Vec3
  zb : Vec3
  time : ℝ
  on_rail : Bool
  burn_out : Bool
  parachute_deployed : Bool
  alt_record : ℝ
  alt_poll_watch : ℝ

/-- Launch-site data and external transforms used by `check_phase`. -/
structure PhaseParams where
  pos_i2l : Vec3 → ℝ → Vec3
  pos_i2alt : Vec3 → ℝ → ℝ
  site_alt : ℝ
  rail_length : ℝ
  alt_poll_watch_interval : ℝ

/-- The launch-frame displacement magnitude `flight_distance` computed by
the rail check of `check_phase` (src/campyros/main.py lines 907-910). -/
def flightDistance (p : PhaseParams) (s : SimState) : ℝ :=
  Vec3.norm (p.pos_i2l s.pos_i s.time - ⟨0, 0, p.site_alt⟩)

/-- The rail check of `Rocket.check_phase` (src/campyros/main.py lines
904-933): while on the rail, leave it once the launch-frame displacement
reaches the rail length, appending the "Cleared rail" event. -/
def rail_check (p : PhaseParams) (s : SimState) : SimState × List String :=
  if s.on_rail = true then
    if p.rail_length ≤ flightDistance p s then
      ({ s with on_rail := false }, ["Cleared rail"])
    else (s, [])
  else (s, [])

/-- The parachute check of `Rocket.check_phase` (src/campyros/main.py
lines 935-952): while not deployed, poll the altitude once more than
`alt_poll_watch_interval` has passed since the poll baseline; deploy
(zeroing the body angular velocity and appending the "Parachute deployed"
event) when the altitude has dropped since the baseline, otherwise record
the new baseline. -/
def parachute_check (p : PhaseParams) (s : SimState) (events : List String) :
    SimState × List String :=
  if s.parachute_deployed = false then
    if s.alt_poll_watch < s.time - p.alt_poll_watch_interval then
      let current_alt := p.pos_i2alt s.pos_i s.time
      if current_alt < s.alt_record then
        ({ s with parachute_deployed := true, w_b := 0 }, events ++ ["Parachute deployed"])
      else
        ({ s with alt_poll_watch := s.time, alt_record := current_alt }, events)
    else (s, events)
  else (s, events)

/-- `Rocket.check_phase` of src/campyros/main.py (lines 884-952): the rail
check followed by the parachute poll, returning the updated state and the
list of events appended during this check. -/
def check_phase (p : PhaseParams) (s : SimState) : SimState × List String :=
  parachute_check p (rail_check p s).1 (rail_check p s).2

/-- The values an integrator step writes back into the Rocket's fields
(src/campyros/main.py lines 806-844): new numeric state from
`integrator.y` and `integrator.t`, plus the burnout latch possibly set by
the `fdot` evaluations inside the step.  `fdot` only ever sets the latch
(see `fdot_burn_out_monotone`), so the step's effect on `burn_out` is an
or. -/
structure NumUpd where
  pos_i : Vec3
  vel_i : Vec3
  w_b : Vec3
  xb : Vec3
  yb : Vec3
  zb : Vec3
  time : ℝ
  burn : Bool

/-- One integrator step of the run loop: overwrites the numeric fields,
or-updates the burnout latch, and leaves the phase flags and the parachute
poll baseline untouched. -/
def numericStep (u : NumUpd) (s : SimState) : SimState :=
  { s with
    pos_i := u.pos_i, vel_i := u.vel_i, w_b := u.w_b,
    xb := u.xb, yb := u.yb, zb := u.zb, time := u.time,
    burn_out := s.burn_out || u.burn }

/-- An operation of the run loop: a phase check or an integrator step. -/
inductive PhaseOp where
  | check : PhaseOp
  | numeric : NumUpd → PhaseOp

/-- Apply one run-loop operation to the Rocket state. -/
def applyOp (p : PhaseParams) (s : SimState) : PhaseOp → SimState
  | PhaseOp.check => (check_phase p s).1
  | PhaseOp.numeric u => numericStep u s

/-- Run a sequence of run-loop operations. -/
def runOps (p : PhaseParams) : SimState → List PhaseOp → SimState
  | s, [] => s
  | s, op :: ops => runOps p (applyOp p s op) ops

/-- The state entering iteration `n` of the run loop of `Rocket.run`
(src/campyros/main.py lines 800-868): each iteration performs the phase
check and then one integrator step. -/
def loopState (p : PhaseParams) (us : ℕ → NumUpd) (init : SimState) : ℕ → SimState
  | 0 => init
  | n + 1 => numericStep (us n) (check_phase p (loopState p us init n)).1

/-- The events emitted by the phase check of iteration `n` of the run loop. -/
def loopEvents (p : PhaseParams) (us : ℕ → NumUpd) (init : SimState) (n : ℕ) : List String :=
  (check_phase p (loopState p us init n)).2

/-! ## Frame transforms of src/main.py (the earlier variant)

`pos_launch_to_inertial`, `pos_inertial_to_launch` and `rot_matrix` are
embedded verbatim from src/main.py lines 473-574, including the transpose
dance of `rot_matrix`'s inverse branch and the constants of that file. -/

/-- A 3x3 matrix of reals, row major. -/
@[ext]
structure Mat3 where
  m00 : ℝ
  m01 : ℝ
  m02 : ℝ
  m10 : ℝ
  m11 : ℝ
  m12 : ℝ
  m20 : ℝ
  m21 : ℝ
  m22 : ℝ

namespace Mat3

/-- Matrix-vector product (np.matmul of a 3x3 matrix and a 3-vector). -/
def mulVec (A : Mat3) (v : Vec3) : Vec3 :=
  ⟨A.m00 * v.x + A.m01 * v.y + A.m02 * v.z,
   A.m10 * v.x + A.m11 * v.y + A.m12 * v.z,
   A.m20 * v.x + A.m21 * v.y + A.m22 * v.z⟩

/-- Matrix product (np.matmul of two 3x3 matrices). -/
def mul (A B : Mat3) : Mat3 :=
  ⟨A.m00 * B.m00 + A.m01 * B.m10 + A.m02 * B.m20,
   A.m00 * B.m01 + A.m01 * B.m11 + A.m02 * B.m21,
   A.m00 * B.m02 + A.m01 * B.m12 + A.m02 * B.m22,
   A.m10 * B.m00 + A.m11 * B.m10 + A.m12 * B.m20,
   A.m10 * B.m01 + A.m11 * B.m11 + A.m12 * B.m21,
   A.m10 * B.m02 + A.m11 * B.m12 + A.m12 * B.m22,
   A.m20 * B.m00 + A.m21 * B.m10 + A.m22 * B.m20,
   A.m20 * B.m01 + A.m21 * B.m11 + A.m22 * B.m21,
   A.m20 * B.m02 + A.m21 * B.m12 + A.m22 * B.m22⟩

/-- Matrix transpose. -/
def transpose (A : Mat3) : Mat3 :=
  ⟨A.m00, A.m10, A.m20, A.m01, A.m11, A.m21, A.m02, A.m12, A.m22⟩

end Mat3

/-- Earth semimajor axis in meters (src/main.py line 76). -/
def r_earth : ℝ := 6378137

/-- Earth eccentricity, set to zero in the source (src/main.py line 78). -/
def e_earth : ℝ := 0

/-- Earth angular velocity in rad/s (src/main.py line 79). -/
def ang_vel_earth : ℝ := 7.292115090e-5

/-- Launch-site data of src/main.py (the fields the transforms read). -/
structure LaunchSite where
  rail_length : ℝ
  rail_yaw : ℝ
  rail_pitch : ℝ
  alt : ℝ
  longi : ℝ
  lat : ℝ

/-- `rot_matrix` of src/main.py (lines 548-574): a yaw-pitch-roll rotation
matrix `Rz(o0) Ry(o1) Rx(o2)`; with `inverse` set, the orientation is
negated and the transpose dance of the source is applied. -/
def rot_matrix (orientation : Vec3) (inverse : Bool) : Mat3 :=
  let o : Vec3 := if inverse then ⟨-orientation.x, -orientation.y, -orientation.z⟩
    else orientation
  let r_x : Mat3 := ⟨1, 0, 0,
                     0, Real.cos o.z, -Real.sin o.z,
                     0, Real.sin o.z, Real.cos o.z⟩
  let r_y : Mat3 := ⟨Real.cos o.y, 0, Real.sin o.y,
                     0, 1, 0,
                     -Real.sin o.y, 0, Real.cos o.y⟩
  let r_z : Mat3 := ⟨Real.cos o.x, -Real.sin o.x, 0,
                     Real.sin o.x, Real.cos o.x, 0,
                     0, 0, 1⟩
  if inverse then
    (Mat3.mul r_z.transpose (Mat3.mul r_y.transpose r_x.transpose)).transpose
  else
    Mat3.mul r_z (Mat3.mul r_y r_x)

/-- `pos_launch_to_inertial` of src/main.py (lines 473-496). -/
def pos_launch_to_inertial (position : Vec3) (launch_site : LaunchSite) (time : ℝ) : Vec3 :=
  let phi := launch_site.lat / 180 * Real.pi
  let lambada := launch_site.longi / 180 * Real.pi
  let h := launch_site.alt
  let position_rotated :=
    (rot_matrix ⟨0, Real.pi / 2 - phi, lambada⟩ true).mulVec position
  let e := e_earth
  let q := Real.sin phi
  let N := r_earth / Real.sqrt (1 - e * e * q * q)
  let X := (N + h) * Real.cos phi * Real.cos lambada + position_rotated.x
  let Y := (N + h) * Real.cos phi * Real.sin lambada + position_rotated.y
  let Z := (N * (1 - e * e) + h) * Real.sin phi - position_rotated.z
  (rot_matrix ⟨time * ang_vel_earth, 0, 0⟩ false).mulVec ⟨X, Y, Z⟩

/-- `pos_inertial_to_launch` of src/main.py (lines 498-520). -/
def pos_inertial_to_launch (position : Vec3) (launch_site : LaunchSite) (time : ℝ) : Vec3 :=
  let phi := launch_site.lat / 180 * Real.pi
  let lambada := launch_site.longi / 180 * Real.pi + time * ang_vel_earth
  let h := launch_site.alt
  let e := e_earth
  let q := Real.sin phi
  let N := r_earth / Real.sqrt (1 - e * e * q * q)
  let X := position.x - (N + h) * Real.cos phi * Real.cos lambada
  let Y := position.y - (N + h) * Real.cos phi * Real.sin lambada
  let Z := position.z - (N * (1 - e * e) + h) * Real.sin phi
  (rot_matrix ⟨time * ang_vel_earth, Real.pi / 2 - phi, lambada - time * ang_vel_earth⟩
    true).mulVec ⟨X, Y, Z⟩

/-- The site rotation used inside both position transforms: the inverse
yaw-pitch-roll rotation for orientation `[0, pi/2 - phi, lambda]`. -/
def site_rotation (site : LaunchSite) : Mat3 :=
  rot_matrix ⟨0, Real.pi / 2 - site.lat / 180 * Real.pi, site.longi / 180 * Real.pi⟩ true

/-- The reflection `diag(1, 1, -1)`: the sign asymmetry between the
`+position_rotated.x/.y` and `-position_rotated.z` terms of
`pos_launch_to_inertial`. -/
def mirror_z : Mat3 := ⟨1, 0, 0, 0, 1, 0, 0, 0, -1⟩

/-- The z-axis rotation by angle `a` (the matrix `r_z` of `rot_matrix`). -/
def rzM (a : ℝ) : Mat3 :=
  ⟨Real.cos a, -Real.sin a, 0, Real.sin a, Real.cos a, 0, 0, 0, 1⟩

/-- The geodetic-to-Cartesian site position built inside both position
transforms (the `X`/`Y`/`Z` offset terms at `time = 0`). -/
def site_center (site : LaunchSite) : Vec3 :=
  let phi := site.lat / 180 * Real.pi
  let lambada := site.longi / 180 * Real.pi
  let q := Real.sin phi
  let N := r_earth / Real.sqrt (1 - e_earth * e_earth * q * q)
  ⟨(N + site.alt) * Real.cos phi * Real.cos lambada,
   (N + site.alt) * Real.cos phi * Real.sin lambada,
   (N * (1 - e_earth * e_earth) + site.alt) * Real.sin phi⟩

/-! ## The simulation record and its JSON round trip

`Rocket.run` appends one row per accepted step to a DataFrame, exports it
with `record.to_dict(orient="list")` followed by `json.dump`, and
`from_json` reads it back with `json.load` followed by
`pandas.DataFrame.from_dict(orient="columns")`.  JSON values are modelled
by `JValue`; numerals are modelled exactly (Python's `json` writes floats
with `repr`, which round-trips them exactly), over ℚ so the model is
executable. -/

/-- One row of the simulation record (src/campyros/main.py lines 847-854). -/
structure SimRow where
  time : ℚ
  pos_i : List ℚ
  vel_i : List ℚ
  b2imat : List (List ℚ)
  w_b : List ℚ
  events : List String
deriving DecidableEq

/-- A JSON value. -/
inductive JValue where
  | num : ℚ → JValue
  | str : String → JValue
  | arr : List JValue → JValue
  | obj : List (String × JValue) → JValue

/-- The columnar JSON document written by `Rocket.run` when `to_json` is
set: `record.to_dict(orient="list")` turns the row sequence into one list
per column, and `json.dump` writes the resulting dict. -/
def exportRecord (rows : List SimRow) : JValue :=
  JValue.obj
    [("time", JValue.arr (rows.map fun r => JValue.num r.time)),
     ("pos_i", JValue.arr (rows.map fun r => JValue.arr (r.pos_i.map JValue.num))),
     ("vel_i", JValue.arr (rows.map fun r => JValue.arr (r.vel_i.map JValue.num))),
     ("b2imat", JValue.arr (rows.map fun r =>
        JValue.arr (r.b2imat.map fun row => JValue.arr (row.map JValue.num)))),
     ("w_b", JValue.arr (rows.map fun r => JValue.arr (r.w_b.map JValue.num))),
     ("events", JValue.arr (rows.map fun r => JValue.arr (r.events.map JValue.str)))]

/-- Decode a JSON number. -/
def decodeNum : JValue → Option ℚ
  | JValue.num q => some q
  | _ => none

/-- Decode a JSON string. -/
def decodeStr : JValue → Option String
  | JValue.str s => some s
  | _ => none

/-- Decode a JSON array of numbers. -/
def decodeNums : List JValue → Option (List ℚ)
  | [] => some []
  | v :: vs => do
    let q ← decodeNum v
    let qs ← decodeNums vs
    some (q :: qs)

/-- Decode a JSON array as a list of number lists. -/
def decodeNumLists : List JValue → Option (List (List ℚ))
  | [] => some []
  | JValue.arr v :: vs => do
    let q ← decodeNums v
    let qs ← decodeNumLists vs
    some (q :: qs)
  | _ => none

/-- Decode a JSON array as a list of matrices (lists of number lists). -/
def decodeNumMats : List JValue → Option (List (List (List ℚ)))
  | [] => some []
  | JValue.arr v :: vs => do
    let q ← decodeNumLists v
    let qs ← decodeNumMats vs
    some (q :: qs)
  | _ => none

/-- Decode a JSON array of strings. -/
def decodeStrs : List JValue → Option (List String)
  | [] => some []
  | v :: vs => do
    let s ← decodeStr v
    let ss ← decodeStrs vs
    some (s :: ss)

/-- Decode a JSON array as a list of string lists. -/
def decodeStrLists : List JValue → Option (List (List String))
  | [] => some []
  | JValue.arr v :: vs => do
    let q ← decodeStrs v
    let qs ← decodeStrLists vs
    some (q :: qs)
  | _ => none

/-- Look a key up in a JSON object's field list. -/
def getField : List (String × JValue) → String → Option JValue
  | [], _ => none
  | (k, v) :: rest, key => if k = key then some v else getField rest key

/-- Rebuild the row sequence from the six columns, as
`pandas.DataFrame.from_dict(orient="columns")` aligns columns into rows;
columns of unequal length do not form a record. -/
def zipRows : List ℚ → List (List ℚ) → List (List ℚ) → List (List (List ℚ)) →
    List (List ℚ) → List (List String) → Option (List SimRow)
  | [], [], [], [], [], [] => some []
  | t :: ts, pv :: ps, v :: vs, b :: bs, w :: ws, e :: es => do
    let rest ← zipRows ts ps vs bs ws es
    some ({ time := t, pos_i := pv, vel_i := v, b2imat := b, w_b := w, events := e } :: rest)
  | _, _, _, _, _, _ => none

/-- `from_json` of src/campyros/main.py (lines 955-986): `json.load`
followed by `pandas.DataFrame.from_dict(orient="columns")`, modelled as
decoding the six columns and re-aligning them into rows. -/
def from_json (j : JValue) : Option (List SimRow) :=
  match j with
  | JValue.obj fields => do
    let JValue.arr tsRaw ← getField fields "time" | none
    let JValue.arr psRaw ← getField fields "pos_i" | none
    let JValue.arr vsRaw ← getField fields "vel_i" | none
    let JValue.arr bsRaw ← getField fields "b2imat" | none
    let JValue.arr wsRaw ← getField fields "w_b" | none
    let JValue.arr esRaw ← getField fields "events" | none
    let ts ← decodeNums tsRaw
    let ps ← decodeNumLists psRaw
    let vs ← decodeNumLists vsRaw
    let bs ← decodeNumMats bsRaw
    let ws ← decodeNumLists wsRaw
    let es ← decodeStrLists esRaw
    zipRows ts ps vs bs ws es
  | _ => none

/-! ## The cylindrical mass model of src/main.py

`CylindricalMassModel` (src/main.py lines 107-164): `mass`, `ixx`, `iyy`,
`izz` raise a `ValueError` on negative time and clamp to the ends of the
supplied time range; `cog` returns `l/2` unconditionally.  The scipy
interpolant `self.mass_interp` is abstracted as the field `mass_interp`,
and the first/last entries of the supplied time list as `time0`/`timeN`.
A raised `ValueError` is modelled as `Except.error` carrying the message. -/

/-- The error message raised by the mass model on negative time (the
source uses this same `ixx` text in every accessor). -/
def negTimeMsg : String := "Tried to input negative time when using CylindricalMassModel.ixx()"

/-- `CylindricalMassModel` of src/main.py. -/
structure CylindricalMassModel where
  mass_interp : ℚ → ℚ
  time0 : ℚ
  timeN : ℚ
  l : ℚ
  r : ℚ

namespace CylindricalMassModel

/-- `CylindricalMassModel.mass`. -/
def mass (m : CylindricalMassModel) (time : ℚ) : Except String ℚ :=
  if time < 0 then Except.error negTimeMsg
  else if time < m.time0 then Except.ok (m.mass_interp m.time0)
  else if time < m.timeN then Except.ok (m.mass_interp time)
  else Except.ok (m.mass_interp m.timeN)

/-- `CylindricalMassModel.ixx`. -/
def ixx (m : CylindricalMassModel) (time : ℚ) : Except String ℚ :=
  if time < 0 then Except.error negTimeMsg
  else if time < m.time0 then do
    let mm ← m.mass m.time0
    Except.ok ((1 / 2) * m.r ^ 2 * mm)
  else if time < m.timeN then do
    let mm ← m.mass time
    Except.ok ((1 / 2) * m.r ^ 2 * mm)
  else do
    let mm ← m.mass m.timeN
    Except.ok ((1 / 2) * m.r ^ 2 * mm)

/-- `CylindricalMassModel.iyy`. -/
def iyy (m : CylindricalMassModel) (time : ℚ) : Except String ℚ :=
  if time < 0 then Except.error negTimeMsg
  else if time < m.time0 then do
    let mm ← m.mass m.time0
    Except.ok (((1 / 4) * m.r ^ 2 + (1 / 12) * m.l ^ 2) * mm)
  else if time < m.timeN then do
    let mm ← m.mass time
    Except.ok (((1 / 4) * m.r ^ 2 + (1 / 12) * m.l ^ 2) * mm)
  else do
    let mm ← m.mass m.timeN
    Except.ok (((1 / 4) * m.r ^ 2 + (1 / 12) * m.l ^ 2) * mm)

/-- `CylindricalMassModel.izz`, which just calls `iyy`. -/
def izz (m : CylindricalMassModel) (time : ℚ) : Except String ℚ := m.iyy time

/-- `CylindricalMassModel.cog`: returns `l/2` with no time check at all. -/
def cog (m : CylindricalMassModel) (time : ℚ) : Except String ℚ :=
  Except.ok (m.l / 2)

end CylindricalMassModel

/-! ## Concrete instances used by witnesses and counterexamples -/

/-- A benign environment: unit mass and inertia, unit speed of sound,
vacuum-like zero density and pressure, zero aero coefficients, burnt-out
motor, zero gravity error factor, unit airspeed. -/
def env0 : Env :=
  { i2lla := fun _ _ => ⟨0, 0, 0⟩
    i2airspeed := fun _ _ _ => ⟨1, 0, 0⟩
    direction_l2i := fun v _ => v
    get_wind := fun _ _ _ => 0
    atmosphere := fun _ => ⟨1, 0, 0⟩
    mass := fun _ => 1
    cog := fun _ => 0
    ixx := fun _ => 1
    iyy := fun _ => 1
    izz := fun _ => 1
    aero_COP := fun _ _ => 0
    aero_CA := fun _ _ => 0
    aero_CN := fun _ _ => 0
    ref_area := 1
    roll_damping_coefficient := 0
    pitch_damping_coefficient := 0
    motor_burn_end := 0
    motor_thrust := fun _ => 0
    motor_ambient_pressure := 0
    motor_exit_area := 0
    motor_pos := 0
    thrust_vector := ⟨1, 0, 0⟩
    parachute := ⟨0, 0, 0, 0, 0, 0⟩
    err_gravity := 0
    err_pressure := 1
    err_density := 1
    err_speed_of_sound := 1 }

/-- The same environment with a still-air apparent airspeed of zero. -/
def envC6 : Env := { env0 with i2airspeed := fun _ _ _ => 0 }

/-- Flags: on the rail, burnout latch already set, parachute armed. -/
def flags0 : Flags := { on_rail := true, burn_out := true, parachute_deployed := false }

/-- Flags: on the rail, pre-burnout, parachute armed. -/
def flagsC6 : Flags := { on_rail := true, burn_out := false, parachute_deployed := false }

/-- A state at unit radius with identity orientation and zero rates. -/
def fn0 : StateVec :=
  { pos_i := ⟨1, 0, 0⟩
    vel_i := 0
    w_b := 0
    xb := ⟨1, 0, 0⟩
    yb := ⟨0, 1, 0⟩
    zb := ⟨0, 0, 1⟩ }

/-- The derivative `fdot` returns on `env0`/`flags0`/`fn0` at time 1. -/
def out0 : FdotOut :=
  { vel_i := 0, acc_i := 0, wdot_b := 0, xbdot := 0, ybdot := 0, zbdot := 0, burn_out := true }

/-- Phase parameters: identity launch-frame transform, altitude read off
the z-coordinate, rail length 1, poll interval 1. -/
def p0 : PhaseParams :=
  { pos_i2l := fun pos _ => pos
    pos_i2alt := fun pos _ => pos.z
    site_alt := 0
    rail_length := 1
    alt_poll_watch_interval := 1 }

/-- Initial run-loop state at the origin, on the rail. -/
def sInit : SimState :=
  { pos_i := 0, vel_i := 0, w_b := 0
    xb := ⟨1, 0, 0⟩, yb := ⟨0, 1, 0⟩, zb := ⟨0, 0, 1⟩
    time := 0, on_rail := true, burn_out := false, parachute_deployed := true
    alt_record := 0, alt_poll_watch := 1 }

/-- An integrator update moving the rocket one rail length away. -/
def u1 : NumUpd :=
  { pos_i := ⟨1, 0, 0⟩, vel_i := 0, w_b := 0
    xb := ⟨1, 0, 0⟩, yb := ⟨0, 1, 0⟩, zb := ⟨0, 0, 1⟩
    time := 1, burn := false }

/-- A state whose parachute poll is not yet due. -/
def s3 : SimState :=
  { pos_i := 0, vel_i := 0, w_b := ⟨1, 2, 3⟩
    xb := ⟨1, 0, 0⟩, yb := ⟨0, 1, 0⟩, zb := ⟨0, 0, 1⟩
    time := 0, on_rail := false, burn_out := false, parachute_deployed := false
    alt_record := 0, alt_poll_watch := 1 }

/-- A state in which every phase flag has already flipped. -/
def sA : SimState :=
  { pos_i := 0, vel_i := 0, w_b := 0
    xb := ⟨1, 0, 0⟩, yb := ⟨0, 1, 0⟩, zb := ⟨0, 0, 1⟩
    time := 0, on_rail := false, burn_out := true, parachute_deployed := true
    alt_record := 0, alt_poll_watch := 0 }

/-- A descending state whose next phase check deploys the parachute. -/
def sPre : SimState :=
  { pos_i := 0, vel_i := 0, w_b := ⟨1, 2, 3⟩
    xb := ⟨1, 0, 0⟩, yb := ⟨0, 1, 0⟩, zb := ⟨0, 0, 1⟩
    time := 10, on_rail := false, burn_out := true, parachute_deployed := false
    alt_record := 5, alt_poll_watch := 0 }

/-- The launch site at latitude 0, longitude 0, altitude 0. -/
def site0 : LaunchSite := ⟨0, 0, 0, 0, 0, 0⟩

/-- A concrete cylindrical mass model with the identity interpolant,
time data spanning 0 to 10, length 2 and radius 1. -/
def m1 : CylindricalMassModel :=
  { mass_interp := id, time0 := 0, timeN := 10, l := 2, r := 1 }

/-! ## Helper lemmas -/

namespace Vec3

@[simp] theorem add_def (a b : Vec3) : a + b = ⟨a.x + b.x, a.y + b.y, a.z + b.z⟩ := rfl

@[simp] theorem sub_def (a b : Vec3) : a - b = ⟨a.x - b.x, a.y - b.y, a.z - b.z⟩ := rfl

@[simp] theorem smul_def (c : ℝ) (v : Vec3) : c • v = ⟨c * v.x, c * v.y, c * v.z⟩ := rfl

@[simp] theorem neg_def (v : Vec3) : -v = ⟨-v.x, -v.y, -v.z⟩ := rfl

@[simp] theorem zero_def : (0 : Vec3) = ⟨0, 0, 0⟩ := rfl

@[simp] theorem zero_x : (0 : Vec3).x = 0 := rfl

@[simp] theorem zero_y : (0 : Vec3).y = 0 := rfl

@[simp] theorem zero_z : (0 : Vec3).z = 0 := rfl

theorem dot_self_nonneg (v : Vec3) : 0 ≤ dot v v := by
  have hx : 0 ≤ v.x * v.x := mul_self_nonneg _
  have hy : 0 ≤ v.y * v.y := mul_self_nonneg _
  have hz : 0 ≤ v.z * v.z := mul_self_nonneg _
  unfold dot; linarith

theorem norm_sq (v : Vec3) : norm v ^ 2 = dot v v :=
  Real.sq_sqrt (dot_self_nonneg v)

end Vec3

/-- Concrete evaluation of the embedded derivative on the benign
environment: every division has a unit denominator and the derivative is
zero throughout. -/
theorem fdot_eval0 : fdot env0 flags0 1 fn0 = some out0 := by
  norm_num [fdot, fdotCore, railAccWdot, env0, flags0, fn0, out0, vRelWindI, vRelWindB,
    airSpeed, clampAlt, cdiv, cdivV, rotApply, rotInvApply, npSign, Vec3.norm, Vec3.dot,
    Vec3.cross, Parachute.get, Real.sqrt_one]
  rfl

/-- C10: the derivative function takes the parachute-drag branch only when
the parachute is deployed AND its main drag coefficient is nonzero; with a
zero main drag coefficient (e.g. the default `Parachute(0,0,0,0,0,0)`),
the derivative of a deployed state is exactly the derivative of the
undeployed state: the full body aerodynamic forces, moments and damping
are computed as in undeployed flight. -/
theorem c10_zero_cd_parachute_ignored (env : Env) (flags : Flags) (time : ℝ) (fn : StateVec)
    (hcd : env.parachute.main_c_d = 0) (hdep : flags.parachute_deployed = true) :
    fdot env flags time fn = fdot env { flags with parachute_deployed := false } time fn := by
  unfold fdot railAccWdot fdotCore
  simp [hcd]

/-- Witness for C10 at the default parachute `Parachute(0,0,0,0,0,0)`. -/
theorem c10_zero_cd_parachute_ignored_witness :
    env0.parachute.main_c_d = 0 ∧
    ({ flags0 with parachute_deployed := true } : Flags).parachute_deployed = true ∧
    fdot env0 { flags0 with parachute_deployed := true } 1 fn0 =
      fdot env0 { { flags0 with parachute_deployed := true } with parachute_deployed := false }
        1 fn0 :=
  ⟨rfl, rfl, c10_zero_cd_parachute_ignored env0 { flags0 with parachute_deployed := true }
    1 fn0 rfl rfl⟩

/-! ## C9: the cylindrical mass model accessors -/

/-- The mass accessor at a time at or below the first data point returns
the interpolant's value at the first data point. -/
theorem mass_clamp_low (m : CylindricalMassModel) (h01 : m.time0 ≤ m.timeN) (t : ℚ)
    (ht0 : 0 ≤ t) (ht : t ≤ m.time0) :
    m.mass t = Except.ok (m.mass_interp m.time0) := by
  unfold CylindricalMassModel.mass
  rcases lt_or_eq_of_le ht with h | h
  · rw [if_neg (by linarith), if_pos h]
  · subst h
    rw [if_neg (by linarith), if_neg (lt_irrefl _)]
    rcases lt_or_eq_of_le h01 with h2 | h2
    · rw [if_pos h2]
    · rw [if_neg (by rw [h2]; exact lt_irrefl _), ← h2]

/-- The mass accessor at a time at or above the last data point returns
the interpolant's value at the last data point. -/
theorem mass_clamp_high (m : CylindricalMassModel) (h0 : 0 ≤ m.time0) (h01 : m.time0 ≤ m.timeN)
    (t : ℚ) (ht : m.timeN ≤ t) :
    m.mass t = Except.ok (m.mass_interp m.timeN) := by
  unfold CylindricalMassModel.mass
  rw [if_neg (by linarith), if_neg (by rw [not_lt]; linarith), if_neg (by rw [not_lt]; linarith)]

/-- C9 counterexample: the claim says every accessor, `cog` included,
raises on negative time; but `CylindricalMassModel.cog` has no time check
and returns `l/2 = 1` for the concrete model `m1` at time `-1` instead of
an error. -/
theorem c9_counterexample_cog_no_negative_check :
    CylindricalMassModel.cog m1 (-1) = Except.ok 1 ∧
    ∀ msg : String, CylindricalMassModel.cog m1 (-1) ≠ Except.error msg := by
  refine ⟨by norm_num [CylindricalMassModel.cog, m1], ?_⟩
  intro msg
  simp [CylindricalMassModel.cog]

/-- Helper: the common clamping shape of the inertia accessors, at or
below the first data point.  Both sides are the body of `ixx`/`iyy`,
instantiated at `t` and at `time0` respectively. -/
theorem inertia_clamp_low (m : CylindricalMassModel) (h0 : 0 ≤ m.time0)
    (h01 : m.time0 ≤ m.timeN) (t : ℚ) (ht0 : 0 ≤ t) (ht : t ≤ m.time0) (c : ℚ) :
    (if t < 0 then Except.error negTimeMsg
     else if t < m.time0 then do
       let mm ← m.mass m.time0
       Except.ok (c * mm)
     else if t < m.timeN then do
       let mm ← m.mass t
       Except.ok (c * mm)
     else do
       let mm ← m.mass m.timeN
       Except.ok (c * mm)) =
    (if m.time0 < 0 then Except.error negTimeMsg
     else if m.time0 < m.time0 then do
       let mm ← m.mass m.time0
       Except.ok (c * mm)
     else if m.time0 < m.timeN then do
       let mm ← m.mass m.time0
       Except.ok (c * mm)
     else do
       let mm ← m.mass m.timeN
       Except.ok (c * mm)) := by
  rcases eq_or_lt_of_le ht with he | hlt
  · rw [he]
  · rw [if_neg (by linarith : ¬t < 0), if_pos hlt, if_neg (by linarith : ¬m.time0 < 0),
      if_neg (lt_irrefl m.time0)]
    rcases lt_or_eq_of_le h01 with h2 | h2
    · rw [if_pos h2]
    · rw [if_neg (by rw [h2]; exact lt_irrefl _), h2]

/-- Helper: the common clamping shape of the inertia accessors, at or
above the last data point. -/
theorem inertia_clamp_high (m : CylindricalMassModel) (h0 : 0 ≤ m.time0)
    (h01 : m.time0 ≤ m.timeN) (t : ℚ) (ht : m.timeN ≤ t) (c : ℚ) :
    (if t < 0 then Except.error negTimeMsg
     else if t < m.time0 then do
       let mm ← m.mass m.time0
       Except.ok (c * mm)
     else if t < m.timeN then do
       let mm ← m.mass t
       Except.ok (c * mm)
     else do
       let mm ← m.mass m.timeN
       Except.ok (c * mm)) =
    (if m.timeN < 0 then Except.error negTimeMsg
     else if m.timeN < m.time0 then do
       let mm ← m.mass m.time0
       Except.ok (c * mm)
     else if m.timeN < m.timeN then do
       let mm ← m.mass m.timeN
       Except.ok (c * mm)
     else do
       let mm ← m.mass m.timeN
       Except.ok (c * mm)) := by
  rcases eq_or_lt_of_le ht with he | hlt
  · rw [← he]
  · rw [if_neg (by linarith : ¬t < 0), if_neg (by rw [not_lt]; linarith : ¬t < m.time0),
      if_neg (by rw [not_lt]; linarith : ¬t < m.timeN),
      if_neg (by linarith : ¬m.timeN < 0), if_neg (not_lt.2 h01), if_neg (lt_irrefl m.timeN)]

/-- C9 (amended): `mass(t)`, `ixx(t)`, `iyy(t)` and `izz(t)` raise the
descriptive `ValueError` for every negative time and clamp to the value at
the nearer boundary of the supplied time range outside it, but `cog(t)`
performs no negative-time check and returns the constant `l/2` for every
time, negative times included. -/
theorem c9_mass_model_amended (m : CylindricalMassModel) (t : ℚ)
    (h0 : 0 ≤ m.time0) (h01 : m.time0 ≤ m.timeN) :
    (t < 0 →
      m.mass t = Except.error negTimeMsg ∧ m.ixx t = Except.error negTimeMsg ∧
      m.iyy t = Except.error negTimeMsg ∧ m.izz t = Except.error negTimeMsg) ∧
    (0 ≤ t → t ≤ m.time0 →
      m.mass t = m.mass m.time0 ∧ m.ixx t = m.ixx m.time0 ∧
      m.iyy t = m.iyy m.time0 ∧ m.izz t = m.izz m.time0) ∧
    (m.timeN ≤ t →
      m.mass t = m.mass m.timeN ∧ m.ixx t = m.ixx m.timeN ∧
      m.iyy t = m.iyy m.timeN ∧ m.izz t = m.izz m.timeN) ∧
    m.cog t = Except.ok (m.l / 2) := by
  have hmassN : m.mass m.timeN = Except.ok (m.mass_interp m.timeN) :=
    mass_clamp_high m h0 h01 m.timeN le_rfl
  have hmass0 : m.mass m.time0 = Except.ok (m.mass_interp m.time0) :=
    mass_clamp_low m h01 m.time0 h0 le_rfl
  refine ⟨?_, ?_, ?_, rfl⟩
  · intro ht
    refine ⟨?_, ?_, ?_, ?_⟩ <;>
      simp only [CylindricalMassModel.mass, CylindricalMassModel.ixx,
        CylindricalMassModel.iyy, CylindricalMassModel.izz, if_pos ht]
  · intro ht0 ht
    have hmasst : m.mass t = Except.ok (m.mass_interp m.time0) := mass_clamp_low m h01 t ht0 ht
    refine ⟨by rw [hmasst, hmass0], ?_, ?_, ?_⟩
    · exact inertia_clamp_low m h0 h01 t ht0 ht ((1 / 2) * m.r ^ 2)
    · exact inertia_clamp_low m h0 h01 t ht0 ht ((1 / 4) * m.r ^ 2 + (1 / 12) * m.l ^ 2)
    · exact inertia_clamp_low m h0 h01 t ht0 ht ((1 / 4) * m.r ^ 2 + (1 / 12) * m.l ^ 2)
  · intro ht
    have hmasst : m.mass t = Except.ok (m.mass_interp m.timeN) := mass_clamp_high m h0 h01 t ht
    refine ⟨by rw [hmasst, hmassN], ?_, ?_, ?_⟩
    · exact inertia_clamp_high m h0 h01 t ht ((1 / 2) * m.r ^ 2)
    · exact inertia_clamp_high m h0 h01 t ht ((1 / 4) * m.r ^ 2 + (1 / 12) * m.l ^ 2)
    · exact inertia_clamp_high m h0 h01 t ht ((1 / 4) * m.r ^ 2 + (1 / 12) * m.l ^ 2)

/-- Witness for C9 (amended) on the concrete model `m1`. -/
theorem c9_mass_model_amended_witness :
    ((-1 : ℚ) < 0 ∧ m1.mass (-1) = Except.error negTimeMsg) ∧
    ((0 : ℚ) ≤ 0 ∧ (0 : ℚ) ≤ m1.time0 ∧ m1.ixx 0 = m1.ixx m1.time0) ∧
    (m1.timeN ≤ 20 ∧ m1.mass 20 = m1.mass m1.timeN) ∧
    m1.cog (-7) = Except.ok (m1.l / 2) := by
  refine ⟨⟨by norm_num, ?_⟩, ⟨le_rfl, by norm_num [m1], ?_⟩, ⟨by norm_num [m1], ?_⟩, ?_⟩
  · exact ((c9_mass_model_amended m1 (-1) (by norm_num [m1]) (by norm_num [m1])).1
      (by norm_num)).1
  · exact (((c9_mass_model_amended m1 0 (by norm_num [m1]) (by norm_num [m1])).2.1
      le_rfl (by norm_num [m1]))).2.1
  · exact (((c9_mass_model_amended m1 20 (by norm_num [m1]) (by norm_num [m1])).2.2.1
      (by norm_num [m1]))).1
  · exact (c9_mass_model_amended m1 (-7) (by norm_num [m1]) (by norm_num [m1])).2.2.2

/-! ## C8: the JSON round trip of the simulation record -/

/-- Decoding an encoded number column recovers it. -/
theorem decodeNums_map {α : Type} (f : α → ℚ) (l : List α) :
    decodeNums (l.map fun a => JValue.num (f a)) = some (l.map f) := by
  induction l with
  | nil => rfl
  | cons a l ih => simp [decodeNums, decodeNum, ih]

/-- Decoding an encoded column of number lists recovers it. -/
theorem decodeNumLists_map {α : Type} (f : α → List ℚ) (l : List α) :
    decodeNumLists (l.map fun a => JValue.arr ((f a).map JValue.num)) = some (l.map f) := by
  induction l with
  | nil => rfl
  | cons a l ih =>
    have h := decodeNums_map (fun q : ℚ => q) (f a)
    simp only [List.map_id] at h
    simp [decodeNumLists, ih, h]

/-- Decoding an encoded column of matrices recovers it. -/
theorem decodeNumMats_map {α : Type} (f : α → List (List ℚ)) (l : List α) :
    decodeNumMats (l.map fun a =>
      JValue.arr ((f a).map fun row => JValue.arr (row.map JValue.num))) = some (l.map f) := by
  induction l with
  | nil => rfl
  | cons a l ih =>
    have h := decodeNumLists_map (fun row : List ℚ => row) (f a)
    simp only [List.map_id] at h
    simp [decodeNumMats, ih, h]

/-- Decoding an encoded string column recovers it. -/
theorem decodeStrs_map (l : List String) :
    decodeStrs (l.map JValue.str) = some l := by
  induction l with
  | nil => rfl
  | cons a l ih => simp [decodeStrs, decodeStr, ih]

/-- Decoding an encoded column of string lists recovers it. -/
theorem decodeStrLists_map {α : Type} (f : α → List String) (l : List α) :
    decodeStrLists (l.map fun a => JValue.arr ((f a).map JValue.str)) = some (l.map f) := by
  induction l with
  | nil => rfl
  | cons a l ih => simp [decodeStrLists, decodeStrs_map, ih]

/-- Re-aligning the six columns of a row sequence recovers the rows. -/
theorem zipRows_map (rows : List SimRow) :
    zipRows (rows.map SimRow.time) (rows.map SimRow.pos_i) (rows.map SimRow.vel_i)
      (rows.map SimRow.b2imat) (rows.map SimRow.w_b) (rows.map SimRow.events) =
      some rows := by
  induction rows with
  | nil => rfl
  | cons r rs ih => simp [zipRows, ih]

/-- C8: exporting a simulation record to the structured JSON document and
re-importing it yields the identical record: every time, position,
velocity (and orientation, angular-velocity, event) entry round-trips
exactly.  Numerals are modelled exactly over ℚ; Python's `json` writes
floats with `repr`, which round-trips every finite float. -/
theorem c8_record_round_trip (rows : List SimRow) :
    from_json (exportRecord rows) = some rows := by
  unfold from_json exportRecord
  simp [getField, decodeNums_map SimRow.time rows, decodeNumLists_map SimRow.pos_i rows,
    decodeNumLists_map SimRow.vel_i rows, decodeNumMats_map SimRow.b2imat rows,
    decodeNumLists_map SimRow.w_b rows, decodeStrLists_map SimRow.events rows, zipRows_map]

/-! ## C3: the parachute altitude poll -/

/-- The rail check never touches the parachute-related fields, the
position, the time, or the angular velocity, and at most appends the
"Cleared rail" event. -/
theorem rail_check_fields (p : PhaseParams) (s : SimState) :
    (rail_check p s).1.parachute_deployed = s.parachute_deployed ∧
    (rail_check p s).1.alt_poll_watch = s.alt_poll_watch ∧
    (rail_check p s).1.alt_record = s.alt_record ∧
    (rail_check p s).1.time = s.time ∧
    (rail_check p s).1.pos_i = s.pos_i ∧
    (rail_check p s).1.w_b = s.w_b ∧
    ((rail_check p s).2 = [] ∨ (rail_check p s).2 = ["Cleared rail"]) := by
  unfold rail_check
  split_ifs <;> simp

/-- C3: while the parachute is not deployed, the phase check polls the
altitude only once more than the poll interval has elapsed since the
recorded poll baseline, not every step (with less than the interval
elapsed, the parachute state is untouched and no deployment event is
emitted); at a poll, if the current altitude is below the recorded
baseline altitude the check sets `parachute_deployed`, zeroes the body
angular velocity and appends the "Parachute deployed" event, and
otherwise it records the current time and altitude as the new baseline
and deploys nothing. -/
theorem c3_parachute_poll (p : PhaseParams) (s : SimState)
    (hdep : s.parachute_deployed = false) :
    (¬(s.alt_poll_watch < s.time - p.alt_poll_watch_interval) →
      (check_phase p s).1.parachute_deployed = false ∧
      (check_phase p s).1.alt_poll_watch = s.alt_poll_watch ∧
      (check_phase p s).1.alt_record = s.alt_record ∧
      (check_phase p s).1.w_b = s.w_b ∧
      "Parachute deployed" ∉ (check_phase p s).2) ∧
    (s.alt_poll_watch < s.time - p.alt_poll_watch_interval →
      (p.pos_i2alt s.pos_i s.time < s.alt_record →
        (check_phase p s).1.parachute_deployed = true ∧
        (check_phase p s).1.w_b = 0 ∧
        "Parachute deployed" ∈ (check_phase p s).2) ∧
      (¬(p.pos_i2alt s.pos_i s.time < s.alt_record) →
        (check_phase p s).1.parachute_deployed = false ∧
        (check_phase p s).1.alt_poll_watch = s.time ∧
        (check_phase p s).1.alt_record = p.pos_i2alt s.pos_i s.time ∧
        "Parachute deployed" ∉ (check_phase p s).2)) := by
  obtain ⟨h1, h2, h3, h4, h5, h6, h7⟩ := rail_check_fields p s
  have hev : "Parachute deployed" ∉ (rail_check p s).2 := by
    rcases h7 with h | h <;> simp [h]
  unfold check_phase parachute_check
  rw [h1, hdep, h2, h4, h3, h5]
  constructor
  · intro hpoll
    rw [if_pos rfl, if_neg hpoll]
    exact ⟨h1.trans hdep, h2, h3, h6, hev⟩
  · intro hpoll
    rw [if_pos rfl, if_pos hpoll]
    constructor
    · intro halt
      rw [if_pos halt]
      refine ⟨by simp, by simp, by simp⟩
    · intro halt
      rw [if_neg halt]
      refine ⟨by simp [h1, hdep], by simp [h4], by simp [h4, h5], hev⟩

/-- Witness for C3: a state whose poll is not yet due, and a state that
polls and deploys. -/
theorem c3_parachute_poll_witness :
    (s3.parachute_deployed = false ∧
      ¬(s3.alt_poll_watch < s3.time - p0.alt_poll_watch_interval) ∧
      (check_phase p0 s3).1.parachute_deployed = false) ∧
    (sPre.parachute_deployed = false ∧
      sPre.alt_poll_watch < sPre.time - p0.alt_poll_watch_interval ∧
      p0.pos_i2alt sPre.pos_i sPre.time < sPre.alt_record ∧
      (check_phase p0 sPre).1.parachute_deployed = true ∧
      (check_phase p0 sPre).1.w_b = 0 ∧
      "Parachute deployed" ∈ (check_phase p0 sPre).2) := by
  have h3 : ¬(s3.alt_poll_watch < s3.time - p0.alt_poll_watch_interval) := by
    norm_num [s3, p0]
  have hp1 : sPre.alt_poll_watch < sPre.time - p0.alt_poll_watch_interval := by
    norm_num [sPre, p0]
  have hp2 : p0.pos_i2alt sPre.pos_i sPre.time < sPre.alt_record := by
    norm_num [sPre, p0]
  obtain ⟨hd1, -, -, -, -⟩ := (c3_parachute_poll p0 s3 rfl).1 h3
  obtain ⟨hd2, hd3, hd4⟩ := ((c3_parachute_poll p0 sPre rfl).2 hp1).1 hp2
  exact ⟨⟨rfl, h3, hd1⟩, ⟨rfl, hp1, hp2, hd2, hd3, hd4⟩⟩

/-! ## C4: one-way phase transitions -/

/-- The phase check never puts the rocket back on the rail. -/
theorem check_phase_on_rail_mono (p : PhaseParams) (s : SimState)
    (h : s.on_rail = false) : (check_phase p s).1.on_rail = false := by
  simp only [check_phase, parachute_check, rail_check]
  split_ifs <;> simp_all

/-- The phase check never un-deploys the parachute. -/
theorem check_phase_parachute_mono (p : PhaseParams) (s : SimState)
    (h : s.parachute_deployed = true) : (check_phase p s).1.parachute_deployed = true := by
  simp only [check_phase, parachute_check, rail_check]
  split_ifs <;> simp_all

/-- The phase check never touches the burnout flag. -/
theorem check_phase_burn_out (p : PhaseParams) (s : SimState) :
    (check_phase p s).1.burn_out = s.burn_out := by
  simp only [check_phase, parachute_check, rail_check]
  split_ifs <;> simp_all

/-- When the phase check flips the parachute flag, it zeroes the body
angular velocity in the same assignment. -/
theorem check_phase_deploy_w_b (p : PhaseParams) (s : SimState)
    (h : s.parachute_deployed = false)
    (h2 : (check_phase p s).1.parachute_deployed = true) :
    (check_phase p s).1.w_b = 0 := by
  simp only [check_phase, parachute_check, rail_check] at h2 ⊢
  split_ifs at h2 ⊢ <;> simp_all

/-- The burnout latch computed by the forces-and-moments core is monotone:
once the Rocket's burnout flag is set, every later `fdot` evaluation
keeps it set. -/
theorem fdotCore_burn_monotone (env : Env) (flags : Flags) (t : ℝ) (fn : StateVec)
    (core : Core) (h : fdotCore env flags t fn = some core)
    (hb : flags.burn_out = true) : core.burn = true := by
  simp only [fdotCore] at h
  rw [Option.bind_eq_some] at h
  obtain ⟨aero, haero, h⟩ := h
  rw [Option.bind_eq_some] at h
  obtain ⟨motor, hmotor, h⟩ := h
  rw [Option.bind_eq_some] at h
  obtain ⟨gscale, hg, h⟩ := h
  rw [Option.map_eq_some'] at h
  obtain ⟨acc, hacc, h⟩ := h
  have hmb : motor.burn = true := by
    by_cases hc : t < env.motor_burn_end
    · rw [if_pos hc, Option.map_eq_some'] at hmotor
      obtain ⟨u, hu, hmot⟩ := hmotor
      rw [← hmot]
      simpa using hb
    · rw [if_neg hc] at hmotor
      rw [Option.some_inj] at hmotor
      rw [← hmotor]
  rw [← h]
  simpa using hmb

/-- The burnout flag returned by `fdot` is monotone in the input flag. -/
theorem fdot_burn_out_monotone (env : Env) (flags : Flags) (t : ℝ) (fn : StateVec)
    (out : FdotOut) (h : fdot env flags t fn = some out)
    (hb : flags.burn_out = true) : out.burn_out = true := by
  unfold fdot at h
  rw [Option.bind_eq_some] at h
  obtain ⟨core, hcore, h⟩ := h
  rw [Option.map_eq_some'] at h
  obtain ⟨aw, haw, h⟩ := h
  have hcb : core.burn = true := fdotCore_burn_monotone env flags t fn core hcore hb
  rw [← h]
  simpa using hcb

/-- C4: every phase flag transition is one-way over any sequence of
integrator steps and phase checks: `on_rail` never returns to true,
`parachute_deployed` never returns to false, and the burnout latch never
returns to false (the latch side of this is `fdot`'s behaviour, stated as
the last conjunct); moreover the body angular velocity is exactly zero
immediately after the operation on which `parachute_deployed` becomes
true (which is necessarily a phase check, since integrator steps never
flip it). -/
theorem c4_one_way_transitions (p : PhaseParams) :
    (∀ (s : SimState) (ops : List PhaseOp),
      s.on_rail = false → (runOps p s ops).on_rail = false) ∧
    (∀ (s : SimState) (ops : List PhaseOp),
      s.parachute_deployed = true → (runOps p s ops).parachute_deployed = true) ∧
    (∀ (s : SimState) (ops : List PhaseOp),
      s.burn_out = true → (runOps p s ops).burn_out = true) ∧
    (∀ (s : SimState) (op : PhaseOp),
      s.parachute_deployed = false → (applyOp p s op).parachute_deployed = true →
      (applyOp p s op).w_b = 0) ∧
    (∀ (env : Env) (flags : Flags) (t : ℝ) (fn : StateVec) (out : FdotOut),
      fdot env flags t fn = some out → flags.burn_out = true → out.burn_out = true) := by
  refine ⟨?_, ?_, ?_, ?_, ?_⟩
  · intro s ops h
    induction ops generalizing s with
    | nil => exact h
    | cons op ops ih =>
      refine ih _ ?_
      cases op with
      | check => exact check_phase_on_rail_mono p s h
      | numeric u => simpa [applyOp, numericStep] using h
  · intro s ops h
    induction ops generalizing s with
    | nil => exact h
    | cons op ops ih =>
      refine ih _ ?_
      cases op with
      | check => exact check_phase_parachute_mono p s h
      | numeric u => simpa [applyOp, numericStep] using h
  · intro s ops h
    induction ops generalizing s with
    | nil => exact h
    | cons op ops ih =>
      refine ih _ ?_
      cases op with
      | check => rw [applyOp, check_phase_burn_out]; exact h
      | numeric u => simp [applyOp, numericStep, h]
  · intro s op h h2
    cases op with
    | check => exact check_phase_deploy_w_b p s h h2
    | numeric u =>
      simp only [applyOp, numericStep] at h2
      rw [h] at h2
      cases h2
  · exact fun env flags t fn out h hb => fdot_burn_out_monotone env flags t fn out h hb

/-- Concrete evaluation: the phase check on the descending state `sPre`
deploys the parachute. -/
theorem applyOp_sPre_deploys :
    (applyOp p0 sPre PhaseOp.check).parachute_deployed = true := by
  norm_num [applyOp, check_phase, rail_check, parachute_check, sPre, p0]

/-- Witness for C4 on concrete states: flags already flipped stay flipped
across a phase check; a deploying phase check zeroes the angular
velocity; and `fdot` keeps a set burnout latch. -/
theorem c4_one_way_transitions_witness :
    (sA.on_rail = false ∧ (runOps p0 sA [PhaseOp.check]).on_rail = false) ∧
    (sA.parachute_deployed = true ∧
      (runOps p0 sA [PhaseOp.check]).parachute_deployed = true) ∧
    (sA.burn_out = true ∧ (runOps p0 sA [PhaseOp.check]).burn_out = true) ∧
    (sPre.parachute_deployed = false ∧
      (applyOp p0 sPre PhaseOp.check).parachute_deployed = true ∧
      (applyOp p0 sPre PhaseOp.check).w_b = 0) ∧
    (flags0.burn_out = true ∧ fdot env0 flags0 1 fn0 = some out0 ∧ out0.burn_out = true) := by
  have hdep : (applyOp p0 sPre PhaseOp.check).parachute_deployed = true :=
    applyOp_sPre_deploys
  refine ⟨⟨rfl, (c4_one_way_transitions p0).1 sA [PhaseOp.check] rfl⟩,
    ⟨rfl, (c4_one_way_transitions p0).2.1 sA [PhaseOp.check] rfl⟩,
    ⟨rfl, (c4_one_way_transitions p0).2.2.1 sA [PhaseOp.check] rfl⟩,
    ⟨rfl, hdep, (c4_one_way_transitions p0).2.2.2.1 sPre PhaseOp.check rfl hdep⟩,
    ⟨rfl, fdot_eval0,
      (c4_one_way_transitions p0).2.2.2.2 env0 flags0 1 fn0 out0 fdot_eval0 rfl⟩⟩

/-! ## C2: rail clearance at the first crossing -/

/-- The integrator step leaves the rail flag unchanged. -/
theorem numericStep_on_rail (u : NumUpd) (s : SimState) :
    (numericStep u s).on_rail = s.on_rail := rfl

/-- The parachute check leaves the rail flag unchanged. -/
theorem parachute_check_on_rail (p : PhaseParams) (s : SimState) (ev : List String) :
    (parachute_check p s ev).1.on_rail = s.on_rail := by
  simp only [parachute_check]
  split_ifs <;> simp

/-- The parachute check appends no "Cleared rail" event. -/
theorem parachute_check_no_rail_event (p : PhaseParams) (s : SimState) (ev : List String)
    (h : "Cleared rail" ∉ ev) : "Cleared rail" ∉ (parachute_check p s ev).2 := by
  simp only [parachute_check]
  split_ifs <;> simp_all

/-- The parachute check keeps every event already emitted. -/
theorem parachute_check_keeps_event (p : PhaseParams) (s : SimState) (ev : List String)
    (x : String) (h : x ∈ ev) : x ∈ (parachute_check p s ev).2 := by
  simp only [parachute_check]
  split_ifs <;> simp_all

/-- Below the rail length, the phase check keeps the rocket on the rail
and emits no "Cleared rail" event. -/
theorem check_phase_rail_stay (p : PhaseParams) (s : SimState) (hr : s.on_rail = true)
    (hd : flightDistance p s < p.rail_length) :
    (check_phase p s).1.on_rail = true ∧ "Cleared rail" ∉ (check_phase p s).2 := by
  have hrc : rail_check p s = (s, []) := by
    rw [rail_check, if_pos hr, if_neg (not_le.2 hd)]
  unfold check_phase
  rw [hrc]
  exact ⟨(parachute_check_on_rail p s []).trans hr,
    parachute_check_no_rail_event p s [] (by simp)⟩

/-- At or beyond the rail length, the phase check takes the rocket off
the rail and emits the "Cleared rail" event. -/
theorem check_phase_rail_fire (p : PhaseParams) (s : SimState) (hr : s.on_rail = true)
    (hd : p.rail_length ≤ flightDistance p s) :
    (check_phase p s).1.on_rail = false ∧ "Cleared rail" ∈ (check_phase p s).2 := by
  have hrc : rail_check p s = ({ s with on_rail := false }, ["Cleared rail"]) := by
    rw [rail_check, if_pos hr, if_pos hd]
  unfold check_phase
  rw [hrc]
  exact ⟨parachute_check_on_rail p _ _, parachute_check_keeps_event p _ _ _ (by simp)⟩

/-- While every checked displacement stays below the rail length, the
rocket stays on the rail. -/
theorem loopState_on_rail (p : PhaseParams) (us : ℕ → NumUpd) (init : SimState) (n : ℕ)
    (hr : init.on_rail = true)
    (hbefore : ∀ k < n, flightDistance p (loopState p us init k) < p.rail_length) :
    (loopState p us init n).on_rail = true := by
  induction n with
  | zero => exact hr
  | succ n ih =>
    have hn : (loopState p us init n).on_rail = true :=
      ih fun k hk => hbefore k (Nat.lt_succ_of_lt hk)
    show (numericStep (us n) (check_phase p (loopState p us init n)).1).on_rail = true
    rw [numericStep_on_rail]
    exact (check_phase_rail_stay p _ hn (hbefore n (Nat.lt_succ_self n))).1

/-- C2: over a run whose phase check is performed once per accepted
integrator step, the rail flag flips from true to false and the
"Cleared rail" event is appended exactly at the first step at which the
launch-frame displacement magnitude from the rail origin reaches or
exceeds the rail length; at every earlier step the flag stays true and no
such event is emitted. -/
theorem c2_rail_clearance (p : PhaseParams) (us : ℕ → NumUpd) (init : SimState) (n : ℕ)
    (hr : init.on_rail = true)
    (hbefore : ∀ k < n, flightDistance p (loopState p us init k) < p.rail_length)
    (hn : p.rail_length ≤ flightDistance p (loopState p us init n)) :
    (∀ k ≤ n, (loopState p us init k).on_rail = true) ∧
    (∀ k < n, "Cleared rail" ∉ loopEvents p us init k) ∧
    "Cleared rail" ∈ loopEvents p us init n ∧
    (loopState p us init (n + 1)).on_rail = false := by
  have hrail : ∀ k ≤ n, (loopState p us init k).on_rail = true := fun k hk =>
    loopState_on_rail p us init k hr fun j hj => hbefore j (lt_of_lt_of_le hj hk)
  refine ⟨hrail, ?_, ?_, ?_⟩
  · intro k hk
    exact (check_phase_rail_stay p _ (hrail k (le_of_lt hk)) (hbefore k hk)).2
  · exact (check_phase_rail_fire p _ (hrail n le_rfl) hn).2
  · show (numericStep (us n) (check_phase p (loopState p us init n)).1).on_rail = false
    rw [numericStep_on_rail]
    exact (check_phase_rail_fire p _ (hrail n le_rfl) hn).1

/-- Witness for C2: a two-step run that starts at the rail origin and is
moved one rail length away by the first integrator step. -/
theorem c2_rail_clearance_witness :
    sInit.on_rail = true ∧
    flightDistance p0 (loopState p0 (fun _ => u1) sInit 0) < p0.rail_length ∧
    p0.rail_length ≤ flightDistance p0 (loopState p0 (fun _ => u1) sInit 1) ∧
    "Cleared rail" ∈ loopEvents p0 (fun _ => u1) sInit 1 ∧
    (loopState p0 (fun _ => u1) sInit 2).on_rail = false := by
  have h0 : flightDistance p0 (loopState p0 (fun _ => u1) sInit 0) < p0.rail_length := by
    show flightDistance p0 sInit < p0.rail_length
    norm_num [flightDistance, p0, sInit, Vec3.norm, Vec3.dot, Real.sqrt_zero]
  have h1 : p0.rail_length ≤ flightDistance p0 (loopState p0 (fun _ => u1) sInit 1) := by
    show p0.rail_length ≤
      flightDistance p0 (numericStep u1 (check_phase p0 (loopState p0 (fun _ => u1) sInit 0)).1)
    norm_num [flightDistance, p0, u1, numericStep, Vec3.norm, Vec3.dot, Real.sqrt_one]
  have hb : ∀ k < 1, flightDistance p0 (loopState p0 (fun _ => u1) sInit k) < p0.rail_length := by
    intro k hk
    have hk0 : k = 0 := Nat.lt_one_iff.mp hk
    rw [hk0]
    exact h0
  obtain ⟨-, -, hmem, hoff⟩ := c2_rail_clearance p0 (fun _ => u1) sInit 1 rfl hb h1
  exact ⟨rfl, h0, h1, hmem, hoff⟩

/-! ## C1: the on-rail projection of the linear acceleration -/

/-- C1: whenever the derivative function is evaluated with the rail flag
set and returns a derivative, the returned rotational acceleration is
exactly the zero vector and the returned linear acceleration is the
orthogonal projection of the total acceleration (`acc_raw`, the net force
over mass computed before the rail constraint) onto the current body
forward axis `b2i.apply([1,0,0])` — hence collinear with that axis. -/
theorem c1_rail_projection (env : Env) (flags : Flags) (t : ℝ) (fn : StateVec)
    (out : FdotOut) (hrail : flags.on_rail = true)
    (hout : fdot env flags t fn = some out) :
    out.wdot_b = 0 ∧
    ∃ core, fdotCore env flags t fn = some core ∧
      out.acc_i = projectOnto (rotApply fn.xb fn.yb fn.zb ⟨1, 0, 0⟩) core.acc_raw ∧
      ∃ c : ℝ, out.acc_i = c • rotApply fn.xb fn.yb fn.zb ⟨1, 0, 0⟩ := by
  unfold fdot at hout
  rw [Option.bind_eq_some] at hout
  obtain ⟨core, hcore, hout⟩ := hout
  rw [Option.map_eq_some'] at hout
  obtain ⟨aw, haw, hout⟩ := hout
  unfold railAccWdot at haw
  rw [if_pos hrail, Option.map_eq_some'] at haw
  obtain ⟨xb_i, hxb, haw⟩ := haw
  have hwdot : out.wdot_b = 0 := by rw [← hout, ← haw]
  set u := rotApply fn.xb fn.yb fn.zb ⟨1, 0, 0⟩ with hu
  unfold cdivV at hxb
  by_cases hn : Vec3.norm u = 0
  · rw [if_pos hn] at hxb
    cases hxb
  · rw [if_neg hn, Option.some_inj] at hxb
    have hacc : out.acc_i = (Vec3.dot core.acc_raw xb_i) • xb_i := by rw [← hout, ← haw]
    have hdotuu : Vec3.dot u u = Vec3.norm u ^ 2 := (Vec3.norm_sq u).symm
    have hproj : out.acc_i = projectOnto u core.acc_raw := by
      rw [hacc, ← hxb]
      unfold projectOnto
      have hd : u.x * u.x + u.y * u.y + u.z * u.z = Vec3.norm u ^ 2 := hdotuu
      ext <;> simp only [Vec3.dot, Vec3.smul_def] <;> rw [hd] <;> field_simp [hn] <;>
        exact Or.inl (pow_two _)
    exact ⟨hwdot, core, hcore, hproj,
      ⟨Vec3.dot core.acc_raw u / Vec3.dot u u, hproj⟩⟩

/-- Witness for C1 on the benign environment: the on-rail derivative
exists and its fields satisfy the projection property. -/
theorem c1_rail_projection_witness :
    flags0.on_rail = true ∧ fdot env0 flags0 1 fn0 = some out0 ∧
    out0.wdot_b = 0 ∧
    ∃ core, fdotCore env0 flags0 1 fn0 = some core ∧
      out0.acc_i = projectOnto (rotApply fn0.xb fn0.yb fn0.zb ⟨1, 0, 0⟩) core.acc_raw := by
  obtain ⟨hw, core, hcore, hproj, -⟩ :=
    c1_rail_projection env0 flags0 1 fn0 out0 rfl fdot_eval0
  exact ⟨rfl, fdot_eval0, hw, core, hcore, hproj⟩

/-! ## C5: the altitude clamp before atmosphere lookups -/

/-- The clamped altitude always lies in the valid atmosphere domain. -/
theorem clampAlt_mem (a : ℝ) : -5000 ≤ clampAlt a ∧ clampAlt a ≤ 81020 := by
  unfold clampAlt
  split_ifs <;> constructor <;> linarith

/-- C5: every atmosphere query made inside the derivative function uses
the clamped altitude: the clamp is the identity on the valid domain
[-5000, 81020] and maps altitudes outside it to the nearer boundary, and
the derivative never reads the atmosphere outside that domain — two
atmosphere models that agree on the domain give identical derivatives. -/
theorem c5_altitude_clamp (env : Env) (atm atm2 : ℝ → AtmoData) (flags : Flags) (t : ℝ)
    (fn : StateVec) (hagree : ∀ a, -5000 ≤ a → a ≤ 81020 → atm a = atm2 a) :
    fdot { env with atmosphere := atm } flags t fn =
      fdot { env with atmosphere := atm2 } flags t fn ∧
    (∀ a : ℝ, -5000 ≤ clampAlt a ∧ clampAlt a ≤ 81020) ∧
    (∀ a : ℝ, -5000 ≤ a → a ≤ 81020 → clampAlt a = a) ∧
    (∀ a : ℝ, a < -5000 → clampAlt a = -5000) ∧
    (∀ a : ℝ, 81020 < a → clampAlt a = 81020) := by
  refine ⟨?_, clampAlt_mem, ?_, ?_, ?_⟩
  · have hkey : atm (clampAlt (env.i2lla fn.pos_i t).alt) =
        atm2 (clampAlt (env.i2lla fn.pos_i t).alt) :=
      hagree _ (clampAlt_mem _).1 (clampAlt_mem _).2
    simp only [fdot, fdotCore, railAccWdot, vRelWindI, vRelWindB, airSpeed]
    rw [hkey]
  · intro a h1 h2
    unfold clampAlt
    rw [if_neg (by linarith), if_neg (by linarith)]
  · intro a h
    unfold clampAlt
    rw [if_pos h]
  · intro a h
    unfold clampAlt
    rw [if_neg (by linarith), if_pos h]

/-- Witness for C5 with two equal atmosphere models. -/
theorem c5_altitude_clamp_witness :
    (∀ a : ℝ, -5000 ≤ a → a ≤ 81020 →
      (fun _ : ℝ => AtmoData.mk 1 0 0) a = (fun _ : ℝ => AtmoData.mk 1 0 0) a) ∧
    fdot { env0 with atmosphere := fun _ : ℝ => AtmoData.mk 1 0 0 } flags0 1 fn0 =
      fdot { env0 with atmosphere := fun _ : ℝ => AtmoData.mk 1 0 0 } flags0 1 fn0 ∧
    clampAlt 0 = 0 := by
  have hagree : ∀ a : ℝ, -5000 ≤ a → a ≤ 81020 →
      (fun _ : ℝ => AtmoData.mk 1 0 0) a = (fun _ : ℝ => AtmoData.mk 1 0 0) a :=
    fun _ _ _ => rfl
  obtain ⟨heq, -, hid, -, -⟩ :=
    c5_altitude_clamp env0 (fun _ : ℝ => AtmoData.mk 1 0 0) (fun _ : ℝ => AtmoData.mk 1 0 0)
      flags0 1 fn0 hagree
  exact ⟨hagree, heq, hid 0 (by norm_num) (by norm_num)⟩

/-! ## C6: the divisions by the apparent-airspeed magnitude -/

/-- Binding a constantly-none continuation gives none. -/
theorem option_bind_none_fun {α β : Type} (x : Option α) :
    (x.bind fun _ => (none : Option β)) = none := by
  cases x <;> rfl

/-- C6 (amended): the divisions by the apparent-airspeed magnitude in the
derivative function (parachute drag, angle of attack, normal-force
direction) are not guarded: at every state whose apparent airspeed is
zero, the derivative computation divides by zero and the embedded
derivative is undefined. -/
theorem c6_amended_airspeed_division_unguarded (env : Env) (flags : Flags) (t : ℝ)
    (fn : StateVec) (h : airSpeed env t fn = 0) :
    fdot env flags t fn = none := by
  have hdiv : cdivV (vRelWindI env t fn) 0 = none := by rw [cdivV, if_pos rfl]
  have hdiv2 : cdivV (vRelWindB env t fn) 0 = none := by rw [cdivV, if_pos rfl]
  have hcore : fdotCore env flags t fn = none := by
    simp only [fdotCore]
    rw [h]
    by_cases hc : flags.parachute_deployed = true ∧ env.parachute.main_c_d ≠ 0
    · rw [if_pos hc]
      simp [hdiv]
    · rw [if_neg hc]
      simp [hdiv2, option_bind_none_fun]
  unfold fdot
  rw [hcore]
  rfl

/-- Witness for C6 (amended) at a concrete still-air state. -/
theorem c6_amended_airspeed_division_unguarded_witness :
    airSpeed envC6 0 fn0 = 0 ∧ fdot envC6 flagsC6 0 fn0 = none := by
  have ha : airSpeed envC6 0 fn0 = 0 := by
    norm_num [airSpeed, vRelWindB, vRelWindI, envC6, env0, fn0, rotInvApply, Vec3.dot,
      Vec3.norm, clampAlt, Real.sqrt_zero]
  exact ⟨ha, c6_amended_airspeed_division_unguarded envC6 flagsC6 0 fn0 ha⟩

/-- C6 counterexample: the claim says an apparent airspeed of zero never
causes a division by zero; at the concrete still-air state the airspeed
is zero and the derivative is undefined because the division by the
airspeed magnitude is reached unguarded.  Proven by direct evaluation. -/
theorem c6_counterexample_zero_airspeed :
    airSpeed envC6 0 fn0 = 0 ∧ fdot envC6 flagsC6 0 fn0 = none := by
  have ha : airSpeed envC6 0 fn0 = 0 := by
    norm_num [airSpeed, vRelWindB, vRelWindI, envC6, env0, fn0, rotInvApply, Vec3.dot,
      Vec3.norm, clampAlt, Real.sqrt_zero]
  have hdiv : cdivV (vRelWindI envC6 0 fn0) 0 = none := by rw [cdivV, if_pos rfl]
  have hdiv2 : cdivV (vRelWindB envC6 0 fn0) 0 = none := by rw [cdivV, if_pos rfl]
  have hcore : fdotCore envC6 flagsC6 0 fn0 = none := by
    simp only [fdotCore]
    rw [ha]
    by_cases hc : flagsC6.parachute_deployed = true ∧ envC6.parachute.main_c_d ≠ 0
    · rw [if_pos hc]
      simp [hdiv]
    · rw [if_neg hc]
      simp [hdiv2, option_bind_none_fun]
  refine ⟨ha, ?_⟩
  unfold fdot
  rw [hcore]
  rfl

/-! ## C7: the position transforms of src/main.py -/

/-- Matrix products act on vectors by composition. -/
theorem mulVec_mul (A B : Mat3) (v : Vec3) :
    (A.mul B).mulVec v = A.mulVec (B.mulVec v) := by
  ext <;> simp [Mat3.mul, Mat3.mulVec] <;> ring

/-- Matrix-vector products distribute over vector subtraction. -/
theorem mulVec_sub (A : Mat3) (u v : Vec3) :
    A.mulVec (u - v) = A.mulVec u - A.mulVec v := by
  ext <;> simp [Mat3.mulVec] <;> ring

/-- Adding then subtracting the same vector is the identity. -/
theorem vec_add_sub_cancel (u v : Vec3) : u + v - u = v := by
  ext <;> simp <;> ring

/-- A pure-yaw `rot_matrix` is the z-rotation. -/
theorem rot_matrix_z_only (a : ℝ) : rot_matrix ⟨a, 0, 0⟩ false = rzM a := by
  apply Mat3.ext <;>
    simp [rot_matrix, rzM, Mat3.mul, Real.cos_zero, Real.sin_zero] <;> ring

/-- An inverse `rot_matrix` factors its yaw into a trailing inverse
z-rotation. -/
theorem rot_matrix_true_split (a b lam : ℝ) :
    rot_matrix ⟨a, b, lam⟩ true = (rot_matrix ⟨0, b, lam⟩ true).mul (rzM (-a)) := by
  apply Mat3.ext <;>
    simp [rot_matrix, rzM, Mat3.mul, Mat3.transpose, Real.cos_neg, Real.sin_neg,
      Real.cos_zero, Real.sin_zero, neg_zero] <;> ring

/-- Opposite z-rotations cancel on vectors. -/
theorem rzM_cancel (a : ℝ) (v : Vec3) :
    (rzM (-a)).mulVec ((rzM a).mulVec v) = v := by
  have h := Real.sin_sq_add_cos_sq a
  ext
  · simp [rzM, Mat3.mulVec, Real.cos_neg, Real.sin_neg]
    linear_combination v.x * h
  · simp [rzM, Mat3.mulVec, Real.cos_neg, Real.sin_neg]
    linear_combination v.y * h
  · simp [rzM, Mat3.mulVec, Real.cos_neg, Real.sin_neg]

/-- `pos_launch_to_inertial` is the Earth-rotation z-rotation applied to
the site position plus the z-mirrored site-rotated input. -/
theorem pos_l2i_decomp (x : Vec3) (site : LaunchSite) (t : ℝ) :
    pos_launch_to_inertial x site t =
      (rzM (t * ang_vel_earth)).mulVec
        (site_center site + mirror_z.mulVec ((site_rotation site).mulVec x)) := by
  simp only [pos_launch_to_inertial, site_rotation, site_center, mirror_z, rot_matrix_z_only]
  congr 1
  ext <;> simp [Mat3.mulVec] <;> ring

/-- `pos_inertial_to_launch` applies the site rotation composed with the
inverse Earth z-rotation to the input minus the rotated site position. -/
theorem pos_i2l_decomp (y : Vec3) (site : LaunchSite) (t : ℝ) :
    pos_inertial_to_launch y site t =
      ((site_rotation site).mul (rzM (-(t * ang_vel_earth)))).mulVec
        (y - (rzM (t * ang_vel_earth)).mulVec (site_center site)) := by
  simp only [pos_inertial_to_launch, site_rotation, site_center]
  have harg : site.longi / 180 * Real.pi + t * ang_vel_earth - t * ang_vel_earth =
      site.longi / 180 * Real.pi := by ring
  rw [harg, rot_matrix_true_split]
  congr 1
  ext <;> simp [Mat3.mulVec, rzM, Real.cos_add, Real.sin_add] <;> ring

/-- C7 (amended): the position transforms are not mutual inverses: the
round trip `pos_inertial_to_launch` after `pos_launch_to_inertial`
applies the inverse site rotation `S`, the reflection `diag(1,1,-1)`
introduced by the sign of the `position_rotated.z` term, and `S` again —
for every position, site and time.  For generic sites this is not the
identity (see the counterexample at latitude and longitude zero). -/
theorem c7_amended_round_trip_is_reflected (site : LaunchSite) (t : ℝ) (x : Vec3) :
    pos_inertial_to_launch (pos_launch_to_inertial x site t) site t =
      (site_rotation site).mulVec (mirror_z.mulVec ((site_rotation site).mulVec x)) := by
  rw [pos_l2i_decomp, pos_i2l_decomp, mulVec_mul, ← mulVec_sub, vec_add_sub_cancel, rzM_cancel]

/-- C7 counterexample: at the equatorial site `site0` and time zero, the
round trip maps the launch-frame position (0, 0, 10^7) to
(0, 0, -10^7), which is not equal to the original to within a 1e-6
relative tolerance (the z error is 2*10^7). -/
theorem c7_counterexample_round_trip :
    pos_inertial_to_launch (pos_launch_to_inertial ⟨0, 0, 10000000⟩ site0 0) site0 0 =
      ⟨0, 0, -10000000⟩ ∧
    ¬(|(-10000000 : ℝ) - 10000000| ≤ 1 / 1000000 * |(10000000 : ℝ)|) := by
  constructor
  · norm_num [pos_launch_to_inertial, pos_inertial_to_launch, rot_matrix, site0,
      Mat3.mul, Mat3.mulVec, Mat3.transpose, e_earth, r_earth, ang_vel_earth,
      Real.cos_zero, Real.sin_zero, Real.sqrt_one, Real.cos_pi_div_two,
      Real.sin_pi_div_two, Real.cos_neg, Real.sin_neg]
  · rw [show ((-10000000 : ℝ) - 10000000) = -20000000 by norm_num, abs_neg,
      abs_of_pos (by norm_num : (0 : ℝ) < 20000000),
      abs_of_pos (by norm_num : (0 : ℝ) < 10000000)]
    norm_num

end
